import Mathlib

/- Verification of the Weather_Agent emergency-response workflow.

   The Python sources (Agents.py, agent_web.py, main.py) are shallowly
   embedded below.  External effects (the OpenWeatherMap fetch, the three
   Gemini model calls, the audit-log write, the SMTP dispatch, and the
   blocking operator input) are modelled by an `Oracle` record supplying
   each call's outcome; timestamps (`time.time()` / `datetime.now()`) are
   modelled by an explicit `Nat` clock parameter.  Strings are handled with
   Python semantics: `str.strip` / `str.lower` / substring `in` are encoded
   directly on the character lists. -/

namespace WeatherAgent

/-- Python str.strip applied to a character list: drop whitespace at both ends. -/
def stripChars (l : List Char) : List Char :=
  ((l.dropWhile Char.isWhitespace).reverse.dropWhile Char.isWhitespace).reverse

/-- Python s.strip(). -/
def pyStrip (s : String) : String := String.mk (stripChars s.data)

/-- Python s.lower() (ASCII case folding, as used by the repository). -/
def pyLower (s : String) : String := String.mk (s.data.map Char.toLower)

/-- Does the first list occur at the head of the second one? -/
def startsWith : List Char → List Char → Bool
  | [], _ => true
  | _ :: _, [] => false
  | a :: as, b :: bs => a == b && startsWith as bs

/-- Does `pat` occur as a contiguous segment of the second list? -/
def containsSeg (pat : List Char) : List Char → Bool
  | [] => pat.isEmpty
  | c :: rest => startsWith pat (c :: rest) || containsSeg pat rest

/-- Python substring test: `pat in s`. -/
def pyContains (s pat : String) : Bool := containsSeg pat.data s.data

/-- The weather reading built by `get_weather_data` (fields as rendered strings;
    on fetch failure every field is the sentinel "N/A"). -/
structure WeatherData where
  weather : String
  wind_speed : String
  cloud_cover : String
  sea_level : String
  temperature : String
  humidity : String
  pressure : String
deriving DecidableEq

/-- The all-sentinel reading written by `get_weather_data` on fetch failure. -/
def errorData : WeatherData :=
  { weather := "N/A", wind_speed := "N/A", cloud_cover := "N/A", sea_level := "N/A",
    temperature := "N/A", humidity := "N/A", pressure := "N/A" }

/-- The `WeatherState` TypedDict.  `human_approved` is `Option Bool` because the
    web variant stores Python `None` there while approval is pending;
    `weather_data` is `Option` because the initial state holds the empty dict.
    `needs_approval` and `verification_id` are the extra keys used by
    agent_web.py (absent keys read as false / none via `state.get`). -/
structure WeatherState where
  city : String
  weather_data : Option WeatherData
  disaster_type : String
  severity : String
  response : String
  messages : List String
  alerts : List String
  human_approved : Option Bool
  needs_approval : Bool
  verification_id : Option String
deriving DecidableEq

/-- Outcomes of the external calls a single run performs.  `Except.error e`
    carries the Python `str(e)` text that the stage interpolates into its
    trace message. -/
structure Oracle where
  fetch : Except String WeatherData
  disasterLLM : Except String String
  severityLLM : Except String String
  planLLM : Except String String
  logFile : Except String Unit
  email : Except String Unit
  humanInput : Bool

/-- The `_pending_verifications` module-level dict of agent_web.py. -/
abbrev Store := List (String × WeatherState)

/-- Dict assignment `store[k] = v`: replace the entry carrying the key if one
    exists (a dict holds at most one entry per key), otherwise append. -/
def storeInsert : Store → String → WeatherState → Store
  | [], k, v => [(k, v)]
  | p :: rest, k, v =>
    if p.1 == k then (k, v) :: rest else p :: storeInsert rest k v

/-- Dict lookup `store[k]` (as an option). -/
def storeFind : Store → String → Option WeatherState
  | [], _ => none
  | p :: rest, k => if p.1 == k then some p.2 else storeFind rest k

/-- Dict deletion `del store[k]`. -/
def storeErase : Store → String → Store
  | [], _ => []
  | p :: rest, k => if p.1 == k then storeErase rest k else p :: storeErase rest k

/-- How many entries of the store carry key `k`. -/
def countKey : Store → String → Nat
  | [], _ => 0
  | p :: rest, k => (if p.1 == k then 1 else 0) + countKey rest k

/-- Python truthiness of an `Optional[bool]` value. -/
def truthy : Option Bool → Bool
  | some b => b
  | none => false

/-- Stage `get_weather_data` (Agents.py lines 34-75): on success install the
    reading, on any exception install the all-"N/A" sentinel reading; append a
    trace entry either way. -/
def get_weather_data (o : Oracle) (s : WeatherState) : WeatherState :=
  match o.fetch with
  | Except.ok d =>
    { s with weather_data := some d,
             messages := s.messages ++ ["Weather data fetched successfully for " ++ s.city] }
  | Except.error e =>
    { s with weather_data := some errorData,
             messages := s.messages ++ ["Failed to fetch weather data for " ++ s.city ++ ": " ++ e] }

/-- Stage `analyze_disaster_type` (Agents.py lines 78-105). -/
def analyze_disaster_type (o : Oracle) (s : WeatherState) : WeatherState :=
  match o.disasterLLM with
  | Except.ok d =>
    { s with disaster_type := d,
             messages := s.messages ++ ["Disaster type identified: " ++ d] }
  | Except.error e =>
    { s with disaster_type := "Analysis Failed",
             messages := s.messages ++ ["Failed to analyze disaster type: " ++ e] }

/-- Stage `assess_severity` (Agents.py lines 108-137). -/
def assess_severity (o : Oracle) (s : WeatherState) : WeatherState :=
  match o.severityLLM with
  | Except.ok v =>
    { s with severity := v,
             messages := s.messages ++ ["Severity assessed as: " ++ v] }
  | Except.error e =>
    { s with severity := "Assessment Failed",
             messages := s.messages ++ ["Failed to assess severity: " ++ e] }

/-- Stage `emergency_response` (Agents.py lines 140-164). -/
def emergency_response (o : Oracle) (s : WeatherState) : WeatherState :=
  match o.planLLM with
  | Except.ok r =>
    { s with response := r,
             messages := s.messages ++ ["Emergency response plan generated"] }
  | Except.error e =>
    { s with response := "Failed to generate response plan",
             messages := s.messages ++ ["Failed to generate emergency response: " ++ e] }

/-- Stage `civil_defense_response` (Agents.py lines 167-191). -/
def civil_defense_response (o : Oracle) (s : WeatherState) : WeatherState :=
  match o.planLLM with
  | Except.ok r =>
    { s with response := r,
             messages := s.messages ++ ["Civil defense response plan generated"] }
  | Except.error e =>
    { s with response := "Failed to generate response plan",
             messages := s.messages ++ ["Failed to generate civil defense response: " ++ e] }

/-- Stage `public_works_response` (Agents.py lines 194-218). -/
def public_works_response (o : Oracle) (s : WeatherState) : WeatherState :=
  match o.planLLM with
  | Except.ok r =>
    { s with response := r,
             messages := s.messages ++ ["Public works response plan generated"] }
  | Except.error e =>
    { s with response := "Failed to generate response plan",
             messages := s.messages ++ ["Failed to generate public works response: " ++ e] }

/-- Stage `data_logging` (Agents.py lines 220-243): the log record (with its
    timestamp) goes to the file only; the state gains a trace entry. -/
def data_logging (o : Oracle) (s : WeatherState) : WeatherState :=
  match o.logFile with
  | Except.ok _ =>
    { s with messages := s.messages ++ ["Data logged successfully"] }
  | Except.error e =>
    { s with messages := s.messages ++ ["Failed to log data: " ++ e] }

/-- Stage `get_human_verification` (Agents.py lines 246-291, blocking mode):
    for low/medium severity block until the operator answers y/n; otherwise
    auto-approve. -/
def get_human_verification (o : Oracle) (s : WeatherState) : WeatherState :=
  let severity := pyLower (pyStrip s.severity)
  if severity == "low" || severity == "medium" then
    let approved := o.humanInput
    { s with human_approved := some approved,
             messages := s.messages ++
               ["Human verification: " ++ (if approved then "Approved" else "Rejected")] }
  else
    { s with human_approved := some true,
             messages := s.messages ++ ["Auto-approved " ++ severity ++ " severity alert"] }

/-- The alerts entry appended on a successful email dispatch
    ("Email alert sent: {datetime.now()}"), with the wall clock modelled
    as a `Nat`. -/
def alertEntry (t : Nat) : String := "Email alert sent: " ++ toString t

/-- Stage `send_email_alert` (Agents.py lines 294-333): on successful dispatch
    append a trace entry and a timestamped alerts entry; on failure append only
    a trace entry. -/
def send_email_alert (o : Oracle) (t : Nat) (s : WeatherState) : WeatherState :=
  match o.email with
  | Except.ok _ =>
    { s with messages := s.messages ++ ["Successfully sent weather alert email for " ++ s.city],
             alerts := s.alerts ++ [alertEntry t] }
  | Except.error e =>
    { s with messages := s.messages ++ ["Failed to send email alert: " ++ e] }

/-- Stage `handle_no_approval` (Agents.py lines 336-348). -/
def handle_no_approval (s : WeatherState) : WeatherState :=
  { s with messages := s.messages ++
      ["Alert not sent for " ++ s.city ++ " - Weather severity level \x27" ++ s.severity ++
       "\x27 was deemed non-critical by human operator and verification was rejected."] }

/-- The three conditional targets of the department router. -/
inductive RouteDept where
  | emergency_response
  | public_works_response
  | civil_defense_response
deriving DecidableEq

/-- Router `route_response` (Agents.py lines 350-361).  The source has an
    unreachable string literal after the first return; semantically the first
    branch returns the emergency-response node only. -/
def route_response (s : WeatherState) : RouteDept :=
  let disaster := pyLower (pyStrip s.disaster_type)
  let severity := pyLower (pyStrip s.severity)
  if severity == "critical" || severity == "high" then
    RouteDept.emergency_response
  else if pyContains disaster "flood" || pyContains disaster "storm" then
    RouteDept.public_works_response
  else
    RouteDept.civil_defense_response

/-- The two conditional targets of the blocking-mode approval router. -/
inductive ApprovalRoute where
  | send_email_alert
  | handle_no_approval
deriving DecidableEq

/-- Router `verify_approval_router` (Agents.py lines 364-366). -/
def verify_approval_router (s : WeatherState) : ApprovalRoute :=
  if truthy s.human_approved then ApprovalRoute.send_email_alert
  else ApprovalRoute.handle_no_approval

/-- Stage `wait_for_approval` (agent_web.py lines 36-41): the park node, an
    identity transformation that lets the workflow stop. -/
def wait_for_approval (s : WeatherState) : WeatherState := s

/-- The three conditional targets of the web approval router. -/
inductive WebRoute where
  | wait_for_approval
  | send_email_alert
  | handle_no_approval
deriving DecidableEq

/-- Router `verify_approval_router_web` (agent_web.py lines 44-53). -/
def verify_approval_router_web (s : WeatherState) : WebRoute :=
  if s.needs_approval && s.human_approved.isNone then WebRoute.wait_for_approval
  else if truthy s.human_approved then WebRoute.send_email_alert
  else WebRoute.handle_no_approval

/-- Stage `get_human_verification_web` (agent_web.py lines 56-88): for
    low/medium severity it persists the INPUT state into
    `_pending_verifications` under the key "{city}_{millis}" and returns the
    state marked pending (the returned state, not the persisted one, carries
    `verification_id`); otherwise it auto-approves.  `t` models
    `int(time.time() * 1000)`. -/
def get_human_verification_web (t : Nat) (s : WeatherState) (store : Store) :
    WeatherState × Store :=
  let severity := pyLower (pyStrip s.severity)
  if severity == "low" || severity == "medium" then
    let verification_id := s.city ++ "_" ++ toString t
    ({ s with human_approved := none,
              verification_id := some verification_id,
              needs_approval := true,
              messages := s.messages ++
                ["Human verification required for low/medium severity alert"] },
     storeInsert store verification_id s)
  else
    ({ s with human_approved := some true,
              needs_approval := false,
              messages := s.messages ++ ["Auto-approved " ++ severity ++ " severity alert"] },
     store)

/-- Operation `continue_with_approval` (agent_web.py lines 91-118): look the
    token up in `_pending_verifications`; if absent raise ValueError (here an
    `Except.error`, with the store untouched); otherwise resolve the decision,
    run the email or the rejection stage, and delete the entry.  The updated
    store is returned alongside so that the store effect is explicit. -/
def continue_with_approval (o : Oracle) (t : Nat) (store : Store)
    (verification_id : String) (approved : Bool) :
    Except String WeatherState × Store :=
  match storeFind store verification_id with
  | none =>
    (Except.error ("Verification ID " ++ verification_id ++ " not found"), store)
  | some st =>
    let st := { st with human_approved := some approved, needs_approval := false }
    let final := if approved then send_email_alert o t st else handle_no_approval st
    (Except.ok final, storeErase store verification_id)

/-- Endpoint `handle_approval` (main.py lines 220-276), reduced to the HTTP
    status it answers with: a ValueError from `continue_with_approval` becomes
    a 404 "Verification ID not found" response, success a 200. -/
def handle_approval (o : Oracle) (t : Nat) (store : Store)
    (verification_id : String) (approved : Bool) : (Nat × String) × Store :=
  match continue_with_approval o t store verification_id approved with
  | (Except.error e, store1) => ((404, "Verification ID not found: " ++ e), store1)
  | (Except.ok _, store1) => ((200, "ok"), store1)

/-- The nodes of the workflow graph (union of the blocking and web graphs). -/
inductive Node where
  | get_weather
  | analyze_disaster
  | assess_severity
  | data_logging
  | emergency_response
  | civil_defense_response
  | public_works_response
  | get_human_verification
  | wait_for_approval
  | send_email_alert
  | handle_no_approval
deriving DecidableEq

/-- The initial state built by `run_weather_emergency_system` (Agents.py lines
    434-444) and by `run_agent_web` (agent_web.py lines 177-188): all fields
    empty, `human_approved` False. -/
def initial_state (city : String) : WeatherState :=
  { city := city, weather_data := none, disaster_type := "", severity := "",
    response := "", messages := [], alerts := [], human_approved := some false,
    needs_approval := false, verification_id := none }

/-- The unconditional head of both graphs:
    get_weather → analyze_disaster → assess_severity → data_logging. -/
def analysis_phase (o : Oracle) (city : String) : WeatherState :=
  data_logging o (assess_severity o (analyze_disaster_type o (get_weather_data o (initial_state city))))

/-- The nodes visited by `analysis_phase`, in order. -/
def analysisNodes : List Node :=
  [Node.get_weather, Node.analyze_disaster, Node.assess_severity, Node.data_logging]

/-- Tail of the blocking graph after a generator routed through verification:
    get_human_verification, then `verify_approval_router` picks the final
    node (Agents.py lines 421-424). -/
def verify_then_finish (o : Oracle) (t : Nat) (s : WeatherState) :
    WeatherState × List Node :=
  let s6 := get_human_verification o s
  match verify_approval_router s6 with
  | ApprovalRoute.send_email_alert =>
    (send_email_alert o t s6, [Node.get_human_verification, Node.send_email_alert])
  | ApprovalRoute.handle_no_approval =>
    (handle_no_approval s6, [Node.get_human_verification, Node.handle_no_approval])

/-- Blocking executor `run_weather_emergency_system` (Agents.py lines 399-451):
    walk the compiled graph from the entry point to END, returning the final
    state and the list of nodes entered. -/
def run_weather_emergency_system (o : Oracle) (t : Nat) (city : String) :
    WeatherState × List Node :=
  let s4 := analysis_phase o city
  match route_response s4 with
  | RouteDept.emergency_response =>
    (send_email_alert o t (emergency_response o s4),
     analysisNodes ++ [Node.emergency_response, Node.send_email_alert])
  | RouteDept.public_works_response =>
    let r := verify_then_finish o t (public_works_response o s4)
    (r.1, analysisNodes ++ Node.public_works_response :: r.2)
  | RouteDept.civil_defense_response =>
    let r := verify_then_finish o t (civil_defense_response o s4)
    (r.1, analysisNodes ++ Node.civil_defense_response :: r.2)

/-- Tail of the web graph after a generator: `get_human_verification_web`,
    then `verify_approval_router_web` picks wait_for_approval (park),
    send_email_alert or handle_no_approval (agent_web.py lines 167-171). -/
def web_verify_then_finish (o : Oracle) (t : Nat) (s : WeatherState)
    (store : Store) : WeatherState × Store × List Node :=
  let p := get_human_verification_web t s store
  match verify_approval_router_web p.1 with
  | WebRoute.wait_for_approval =>
    (wait_for_approval p.1, p.2, [Node.get_human_verification, Node.wait_for_approval])
  | WebRoute.send_email_alert =>
    (send_email_alert o t p.1, p.2, [Node.get_human_verification, Node.send_email_alert])
  | WebRoute.handle_no_approval =>
    (handle_no_approval p.1, p.2, [Node.get_human_verification, Node.handle_no_approval])

/-- Web executor `run_agent_web` (agent_web.py lines 121-239): same graph with
    the web verification node and the park node; returns the final state, the
    updated `_pending_verifications` store and the nodes entered. -/
def run_agent_web (o : Oracle) (t : Nat) (city : String) (store : Store) :
    WeatherState × Store × List Node :=
  let s4 := analysis_phase o city
  match route_response s4 with
  | RouteDept.emergency_response =>
    (send_email_alert o t (emergency_response o s4), store,
     analysisNodes ++ [Node.emergency_response, Node.send_email_alert])
  | RouteDept.public_works_response =>
    let r := web_verify_then_finish o t (public_works_response o s4) store
    (r.1, r.2.1, analysisNodes ++ Node.public_works_response :: r.2.2)
  | RouteDept.civil_defense_response =>
    let r := web_verify_then_finish o t (civil_defense_response o s4) store
    (r.1, r.2.1, analysisNodes ++ Node.civil_defense_response :: r.2.2)

/-- A healthy reading used by the concrete runs below. -/
def okData : WeatherData :=
  { weather := "clear sky", wind_speed := "3", cloud_cover := "10", sea_level := "1013",
    temperature := "20.0", humidity := "50", pressure := "1013" }

/-- Oracle: every external call succeeds, severity assessed Critical. -/
def oracleCritical : Oracle :=
  { fetch := Except.ok okData, disasterLLM := Except.ok "Flood",
    severityLLM := Except.ok "Critical", planLLM := Except.ok "plan text",
    logFile := Except.ok (), email := Except.ok (), humanInput := true }

/-- Oracle: every external call succeeds, severity assessed Low, disaster
    outside the flood/storm signature. -/
def oracleLow : Oracle :=
  { fetch := Except.ok okData, disasterLLM := Except.ok "Heatwave",
    severityLLM := Except.ok "Low", planLLM := Except.ok "plan text",
    logFile := Except.ok (), email := Except.ok (), humanInput := true }

/-- Oracle: every external call succeeds except the email dispatch. -/
def oracleEmailFail : Oracle :=
  { fetch := Except.ok okData, disasterLLM := Except.ok "Heatwave",
    severityLLM := Except.ok "Low", planLLM := Except.ok "plan text",
    logFile := Except.ok (), email := Except.error "smtp down", humanInput := true }

/-- Oracle: every external call fails. -/
def oracleAllFail : Oracle :=
  { fetch := Except.error "net", disasterLLM := Except.error "llm",
    severityLLM := Except.error "llm", planLLM := Except.error "llm",
    logFile := Except.error "disk", email := Except.error "smtp", humanInput := true }

/-- A suspended state as stored for the token "c_7" in the concrete runs. -/
def stLowSuspended : WeatherState :=
  { city := "c", weather_data := some okData, disaster_type := "Heatwave",
    severity := "Low", response := "plan text", messages := [], alerts := [],
    human_approved := some false, needs_approval := false, verification_id := none }

/-- A state with the alerts sequence blanked, used to compare two run results
    on every field other than `alerts`. -/
def eraseAlerts (s : WeatherState) : WeatherState := { s with alerts := [] }

/-- The severity the run carries after the assessment stage, as a function of
    the model-call outcome. -/
def assessedSeverity (o : Oracle) : String :=
  match o.severityLLM with
  | Except.ok v => v
  | Except.error _ => "Assessment Failed"

lemma storeFind_insert (store : Store) (k : String) (v : WeatherState) :
    storeFind (storeInsert store k v) k = some v := by
  induction store with
  | nil => simp [storeInsert, storeFind]
  | cons p rest ih =>
    by_cases h : p.1 == k
    · simp [storeInsert, h, storeFind]
    · simp [storeInsert, h, storeFind, ih]

lemma countKey_insert (store : Store) (k : String) (v : WeatherState)
    (h : countKey store k ≤ 1) : countKey (storeInsert store k v) k = 1 := by
  induction store with
  | nil => simp [storeInsert, countKey]
  | cons p rest ih =>
    by_cases hp : p.1 == k
    · have hrest : countKey rest k = 0 := by
        simp only [countKey, hp, if_true] at h
        omega
      simp [storeInsert, hp, countKey, hrest]
    · have h1 : countKey rest k ≤ 1 := by
        simp only [countKey, hp, if_false] at h
        omega
      simp [storeInsert, hp, countKey, ih h1]

lemma countKey_erase (store : Store) (k : String) :
    countKey (storeErase store k) k = 0 := by
  induction store with
  | nil => simp [storeErase, countKey]
  | cons p rest ih =>
    by_cases hp : p.1 == k
    · simpa [storeErase, hp] using ih
    · simp [storeErase, hp, countKey, ih]

lemma emergency_response_frame (o : Oracle) (s : WeatherState) :
    (emergency_response o s).city = s.city ∧
    (emergency_response o s).severity = s.severity ∧
    (emergency_response o s).disaster_type = s.disaster_type ∧
    (emergency_response o s).alerts = s.alerts ∧
    (emergency_response o s).human_approved = s.human_approved ∧
    (emergency_response o s).needs_approval = s.needs_approval ∧
    (emergency_response o s).verification_id = s.verification_id := by
  cases h : o.planLLM <;> simp [emergency_response, h]

lemma civil_defense_response_frame (o : Oracle) (s : WeatherState) :
    (civil_defense_response o s).city = s.city ∧
    (civil_defense_response o s).severity = s.severity ∧
    (civil_defense_response o s).disaster_type = s.disaster_type ∧
    (civil_defense_response o s).alerts = s.alerts ∧
    (civil_defense_response o s).human_approved = s.human_approved ∧
    (civil_defense_response o s).needs_approval = s.needs_approval ∧
    (civil_defense_response o s).verification_id = s.verification_id := by
  cases h : o.planLLM <;> simp [civil_defense_response, h]

lemma public_works_response_frame (o : Oracle) (s : WeatherState) :
    (public_works_response o s).city = s.city ∧
    (public_works_response o s).severity = s.severity ∧
    (public_works_response o s).disaster_type = s.disaster_type ∧
    (public_works_response o s).alerts = s.alerts ∧
    (public_works_response o s).human_approved = s.human_approved ∧
    (public_works_response o s).needs_approval = s.needs_approval ∧
    (public_works_response o s).verification_id = s.verification_id := by
  cases h : o.planLLM <;> simp [public_works_response, h]

lemma send_email_alert_frame (o : Oracle) (t : Nat) (s : WeatherState) :
    (send_email_alert o t s).city = s.city ∧
    (send_email_alert o t s).severity = s.severity ∧
    (send_email_alert o t s).disaster_type = s.disaster_type ∧
    (send_email_alert o t s).human_approved = s.human_approved ∧
    (send_email_alert o t s).needs_approval = s.needs_approval ∧
    (send_email_alert o t s).verification_id = s.verification_id := by
  cases h : o.email <;> simp [send_email_alert, h]

lemma get_human_verification_frame (o : Oracle) (s : WeatherState) :
    (get_human_verification o s).city = s.city ∧
    (get_human_verification o s).severity = s.severity ∧
    (get_human_verification o s).disaster_type = s.disaster_type ∧
    (get_human_verification o s).alerts = s.alerts ∧
    (get_human_verification o s).needs_approval = s.needs_approval ∧
    (get_human_verification o s).verification_id = s.verification_id := by
  cases h : (pyLower (pyStrip s.severity) == "low" || pyLower (pyStrip s.severity) == "medium") <;>
    simp [get_human_verification, h]

lemma analysis_phase_spec (o : Oracle) (city : String) :
    (analysis_phase o city).city = city ∧
    (analysis_phase o city).alerts = [] ∧
    (analysis_phase o city).human_approved = some false ∧
    (analysis_phase o city).needs_approval = false ∧
    (analysis_phase o city).verification_id = none ∧
    (analysis_phase o city).severity = assessedSeverity o := by
  cases h1 : o.fetch <;> cases h2 : o.disasterLLM <;> cases h3 : o.severityLLM <;>
    cases h4 : o.logFile <;>
    simp [analysis_phase, get_weather_data, analyze_disaster_type, assess_severity,
      data_logging, initial_state, assessedSeverity, h1, h2, h3, h4]

lemma route_response_critical_high (s : WeatherState)
    (h : pyLower (pyStrip s.severity) = "critical" ∨ pyLower (pyStrip s.severity) = "high") :
    route_response s = RouteDept.emergency_response := by
  rcases h with h | h <;> simp [route_response, h]

lemma route_response_not_critical_high (s : WeatherState)
    (h1 : pyLower (pyStrip s.severity) ≠ "critical")
    (h2 : pyLower (pyStrip s.severity) ≠ "high") :
    route_response s =
      (if pyContains (pyLower (pyStrip s.disaster_type)) "flood" ||
          pyContains (pyLower (pyStrip s.disaster_type)) "storm" then
         RouteDept.public_works_response
       else RouteDept.civil_defense_response) := by
  simp only [route_response]
  rw [if_neg]
  simp [h1, h2]

/-- Claim C1: the department router sends the run to the life-safety node
    whenever the stripped, lowercased severity is "critical" or "high",
    regardless of disaster type; otherwise to the infrastructure node when the
    stripped, lowercased disaster type contains "flood" or "storm"; and to the
    civil-defense node in all remaining cases — severity dominates the
    disaster-type classification. -/
theorem route_response_spec (s : WeatherState) :
    ((pyLower (pyStrip s.severity) = "critical" ∨ pyLower (pyStrip s.severity) = "high") →
       route_response s = RouteDept.emergency_response) ∧
    (pyLower (pyStrip s.severity) ≠ "critical" → pyLower (pyStrip s.severity) ≠ "high" →
       (pyContains (pyLower (pyStrip s.disaster_type)) "flood" = true ∨
        pyContains (pyLower (pyStrip s.disaster_type)) "storm" = true) →
       route_response s = RouteDept.public_works_response) ∧
    (pyLower (pyStrip s.severity) ≠ "critical" → pyLower (pyStrip s.severity) ≠ "high" →
       pyContains (pyLower (pyStrip s.disaster_type)) "flood" = false →
       pyContains (pyLower (pyStrip s.disaster_type)) "storm" = false →
       route_response s = RouteDept.civil_defense_response) := by
  refine ⟨route_response_critical_high s, ?_, ?_⟩
  · intro h1 h2 h3
    rw [route_response_not_critical_high s h1 h2]
    rcases h3 with h3 | h3 <;> simp [h3]
  · intro h1 h2 h3 h4
    rw [route_response_not_critical_high s h1 h2]
    simp [h3, h4]

/-- Witness for C1: the three router outcomes at concrete states, including
    the severity-dominates case (Critical + Flood) and the sentinel/empty
    case. -/
theorem route_response_spec_witness :
    route_response { initial_state "c" with severity := " Critical ", disaster_type := "Flood" } =
      RouteDept.emergency_response ∧
    route_response { initial_state "c" with severity := "Low", disaster_type := "Severe Storm" } =
      RouteDept.public_works_response ∧
    route_response { initial_state "c" with severity := "", disaster_type := "" } =
      RouteDept.civil_defense_response :=
  ⟨(route_response_spec _).1 (Or.inl (by decide)),
   (route_response_spec _).2.1 (by decide) (by decide) (Or.inr (by decide)),
   (route_response_spec _).2.2 (by decide) (by decide) (by decide) (by decide)⟩

/-- Claim C10: for every input state whose stripped, lowercased severity is
    anything other than "low" or "medium" — including the sentinel
    "Assessment Failed" and the empty string — the blocking human-verification
    stage sets human_approved to true and changes nothing else but the trace,
    independently of the operator-input channel (no input is solicited). -/
theorem non_low_medium_auto_approved (o o2 : Oracle) (s : WeatherState)
    (h1 : pyLower (pyStrip s.severity) ≠ "low")
    (h2 : pyLower (pyStrip s.severity) ≠ "medium") :
    get_human_verification o s =
      { s with human_approved := some true,
               messages := s.messages ++
                 ["Auto-approved " ++ pyLower (pyStrip s.severity) ++ " severity alert"] } ∧
    get_human_verification o s = get_human_verification o2 s := by
  constructor <;> simp [get_human_verification, h1, h2]

/-- Witness for C10: the stage auto-approves the severity sentinel
    "Assessment Failed" and the empty severity, for two oracles whose operator
    inputs differ. -/
theorem non_low_medium_auto_approved_witness :
    (get_human_verification oracleCritical { stLowSuspended with severity := "Assessment Failed" } =
      { stLowSuspended with
          severity := "Assessment Failed",
          human_approved := some true,
          messages := stLowSuspended.messages ++
            ["Auto-approved " ++ pyLower (pyStrip "Assessment Failed") ++ " severity alert"] }) ∧
    (get_human_verification oracleCritical { stLowSuspended with severity := "Assessment Failed" } =
      get_human_verification
        { oracleCritical with humanInput := false }
        { stLowSuspended with severity := "Assessment Failed" }) :=
  non_low_medium_auto_approved oracleCritical { oracleCritical with humanInput := false }
    { stLowSuspended with severity := "Assessment Failed" } (by decide) (by decide)

/-- Claim C5: for every token absent from the pending-decision store, the
    resume operation fails with a not-found error, the store is left unchanged
    by the failed call, and the HTTP layer surfaces the failure as a 404 with
    the store still unchanged. -/
theorem resume_unknown_token_fails (o : Oracle) (t : Nat) (store : Store)
    (verification_id : String) (approved : Bool)
    (h : storeFind store verification_id = none) :
    continue_with_approval o t store verification_id approved =
      (Except.error ("Verification ID " ++ verification_id ++ " not found"), store) ∧
    (handle_approval o t store verification_id approved).1.1 = 404 ∧
    (handle_approval o t store verification_id approved).2 = store := by
  refine ⟨?_, ?_, ?_⟩ <;> simp [continue_with_approval, handle_approval, h]

/-- Witness for C5: resuming with an unknown token on a one-entry store. -/
theorem resume_unknown_token_fails_witness :
    continue_with_approval oracleLow 0 [("c_7", stLowSuspended)] "other" true =
      (Except.error ("Verification ID " ++ "other" ++ " not found"), [("c_7", stLowSuspended)]) ∧
    (handle_approval oracleLow 0 [("c_7", stLowSuspended)] "other" true).1.1 = 404 ∧
    (handle_approval oracleLow 0 [("c_7", stLowSuspended)] "other" true).2 =
      [("c_7", stLowSuspended)] :=
  resume_unknown_token_fails oracleLow 0 [("c_7", stLowSuspended)] "other" true (by decide)

/-- Counterexample to C4 as stated: with the token "tok" present in the store
    and `approved = true`, a failing email transport yields a completed run in
    which NO notification was recorded (`alerts` stays empty), although the
    claim demands an entry appended to `alerts` for every present token. -/
theorem resume_approved_email_failure_no_alert :
    (continue_with_approval oracleEmailFail 0 [("tok", stLowSuspended)] "tok" true).1.map
        (fun s => s.alerts) = Except.ok [] ∧
    stLowSuspended.alerts = [] := by
  constructor <;> rfl

/-- Claim C4 as amended: for every token present in the pending-decision
    store, resuming completes the run (no error) and deletes the token exactly
    once (the store loses that key entirely); a notification is recorded
    exactly when the decision is approval AND the email dispatch succeeds — on
    dispatch failure or on rejection the alerts sequence is unchanged. -/
theorem resume_valid_token_spec (o : Oracle) (t : Nat) (store : Store)
    (verification_id : String) (st : WeatherState) (approved : Bool)
    (hfind : storeFind store verification_id = some st) :
    (∃ final, (continue_with_approval o t store verification_id approved).1 =
        Except.ok final ∧
      ((approved = true ∧ o.email = Except.ok ()) →
        final.alerts = st.alerts ++ [alertEntry t]) ∧
      (∀ e, (approved = true ∧ o.email = Except.error e) → final.alerts = st.alerts) ∧
      (approved = false → final.alerts = st.alerts)) ∧
    (continue_with_approval o t store verification_id approved).2 =
      storeErase store verification_id ∧
    countKey (continue_with_approval o t store verification_id approved).2
      verification_id = 0 := by
  refine ⟨⟨?_, ?_, ?_, ?_, ?_⟩, ?_, ?_⟩
  · exact (if approved then
      send_email_alert o t { st with human_approved := some approved, needs_approval := false }
    else handle_no_approval { st with human_approved := some approved, needs_approval := false })
  · simp [continue_with_approval, hfind]
  · rintro ⟨ha, he⟩
    subst ha
    simp [send_email_alert, he]
  · rintro e ⟨ha, he⟩
    subst ha
    simp [send_email_alert, he]
  · intro ha
    subst ha
    simp [handle_no_approval]
  · simp [continue_with_approval, hfind]
  · simp [continue_with_approval, hfind, countKey_erase]

/-- Witness for C4: resuming the token "c_7" with approval under a working
    email transport appends the timestamped notification and empties the
    store. -/
theorem resume_valid_token_spec_witness :
    (∃ final, (continue_with_approval oracleLow 3 [("c_7", stLowSuspended)] "c_7" true).1 =
        Except.ok final ∧
      ((true = true ∧ oracleLow.email = Except.ok ()) →
        final.alerts = stLowSuspended.alerts ++ [alertEntry 3]) ∧
      (∀ e, (true = true ∧ oracleLow.email = Except.error e) →
        final.alerts = stLowSuspended.alerts) ∧
      (true = false → final.alerts = stLowSuspended.alerts)) ∧
    (continue_with_approval oracleLow 3 [("c_7", stLowSuspended)] "c_7" true).2 =
      storeErase [("c_7", stLowSuspended)] "c_7" ∧
    countKey (continue_with_approval oracleLow 3 [("c_7", stLowSuspended)] "c_7" true).2
      "c_7" = 0 :=
  resume_valid_token_spec oracleLow 3 [("c_7", stLowSuspended)] "c_7" stLowSuspended true
    (by decide)

/-- Claim C6: every stage function returns a state whose trace is the input
    trace with zero or more entries appended at the end — the trace only
    grows and is never truncated or reordered by any stage, in either
    execution mode. -/
theorem stages_append_only_trace :
    (∀ o s, ∃ ts, (get_weather_data o s).messages = s.messages ++ ts) ∧
    (∀ o s, ∃ ts, (analyze_disaster_type o s).messages = s.messages ++ ts) ∧
    (∀ o s, ∃ ts, (assess_severity o s).messages = s.messages ++ ts) ∧
    (∀ o s, ∃ ts, (emergency_response o s).messages = s.messages ++ ts) ∧
    (∀ o s, ∃ ts, (civil_defense_response o s).messages = s.messages ++ ts) ∧
    (∀ o s, ∃ ts, (public_works_response o s).messages = s.messages ++ ts) ∧
    (∀ o s, ∃ ts, (data_logging o s).messages = s.messages ++ ts) ∧
    (∀ o s, ∃ ts, (get_human_verification o s).messages = s.messages ++ ts) ∧
    (∀ o t s, ∃ ts, (send_email_alert o t s).messages = s.messages ++ ts) ∧
    (∀ s, ∃ ts, (handle_no_approval s).messages = s.messages ++ ts) ∧
    (∀ s, ∃ ts, (wait_for_approval s).messages = s.messages ++ ts) ∧
    (∀ t s store, ∃ ts, (get_human_verification_web t s store).1.messages = s.messages ++ ts) := by
  refine ⟨?_, ?_, ?_, ?_, ?_, ?_, ?_, ?_, ?_, ?_, ?_, ?_⟩
  · intro o s
    cases h : o.fetch <;> exact ⟨_, by simp only [get_weather_data, h]; rfl⟩
  · intro o s
    cases h : o.disasterLLM <;> exact ⟨_, by simp only [analyze_disaster_type, h]; rfl⟩
  · intro o s
    cases h : o.severityLLM <;> exact ⟨_, by simp only [assess_severity, h]; rfl⟩
  · intro o s
    cases h : o.planLLM <;> exact ⟨_, by simp only [emergency_response, h]; rfl⟩
  · intro o s
    cases h : o.planLLM <;> exact ⟨_, by simp only [civil_defense_response, h]; rfl⟩
  · intro o s
    cases h : o.planLLM <;> exact ⟨_, by simp only [public_works_response, h]; rfl⟩
  · intro o s
    cases h : o.logFile <;> exact ⟨_, by simp only [data_logging, h]; rfl⟩
  · intro o s
    cases h : (pyLower (pyStrip s.severity) == "low" || pyLower (pyStrip s.severity) == "medium") <;>
      exact ⟨_, by simp only [get_human_verification, h, Bool.false_eq_true, if_false, if_true]; rfl⟩
  · intro o t s
    cases h : o.email <;> exact ⟨_, by simp only [send_email_alert, h]; rfl⟩
  · intro s
    exact ⟨_, by simp only [handle_no_approval]; rfl⟩
  · intro s
    exact ⟨[], by simp [wait_for_approval]⟩
  · intro t s store
    cases h : (pyLower (pyStrip s.severity) == "low" || pyLower (pyStrip s.severity) == "medium") <;>
      exact ⟨_, by simp only [get_human_verification_web, h, Bool.false_eq_true, if_false, if_true]; rfl⟩

lemma run_reaches_terminal (o : Oracle) (t : Nat) (city : String) :
    Node.send_email_alert ∈ (run_weather_emergency_system o t city).2 ∨
    Node.handle_no_approval ∈ (run_weather_emergency_system o t city).2 := by
  rcases hr : route_response (analysis_phase o city) with _ | _ | _ <;>
    simp only [run_weather_emergency_system, hr, verify_then_finish]
  · left
    decide
  · rcases hv : verify_approval_router
        (get_human_verification o (public_works_response o (analysis_phase o city))) with _ | _ <;>
      simp only []
    · left
      decide
    · right
      decide
  · rcases hv : verify_approval_router
        (get_human_verification o (civil_defense_response o (analysis_phase o city))) with _ | _ <;>
      simp only []
    · left
      decide
    · right
      decide

/-- Claim C7: every stage catches its own failure, writes the documented error
    sentinel into the relevant field, appends a failure entry to the trace,
    and leaves every other field unchanged; and a run always reaches a
    terminal node of the graph (send_email_alert or handle_no_approval)
    whatever the oracle outcomes. -/
theorem stage_failure_containment :
    (∀ o s e, o.fetch = Except.error e → get_weather_data o s =
       { s with weather_data := some errorData,
                messages := s.messages ++
                  ["Failed to fetch weather data for " ++ s.city ++ ": " ++ e] }) ∧
    (∀ o s e, o.disasterLLM = Except.error e → analyze_disaster_type o s =
       { s with disaster_type := "Analysis Failed",
                messages := s.messages ++ ["Failed to analyze disaster type: " ++ e] }) ∧
    (∀ o s e, o.severityLLM = Except.error e → assess_severity o s =
       { s with severity := "Assessment Failed",
                messages := s.messages ++ ["Failed to assess severity: " ++ e] }) ∧
    (∀ o s e, o.planLLM = Except.error e → emergency_response o s =
       { s with response := "Failed to generate response plan",
                messages := s.messages ++ ["Failed to generate emergency response: " ++ e] }) ∧
    (∀ o s e, o.planLLM = Except.error e → civil_defense_response o s =
       { s with response := "Failed to generate response plan",
                messages := s.messages ++ ["Failed to generate civil defense response: " ++ e] }) ∧
    (∀ o s e, o.planLLM = Except.error e → public_works_response o s =
       { s with response := "Failed to generate response plan",
                messages := s.messages ++ ["Failed to generate public works response: " ++ e] }) ∧
    (∀ o s e, o.logFile = Except.error e → data_logging o s =
       { s with messages := s.messages ++ ["Failed to log data: " ++ e] }) ∧
    (∀ o t s e, o.email = Except.error e → send_email_alert o t s =
       { s with messages := s.messages ++ ["Failed to send email alert: " ++ e] }) ∧
    (∀ o t city, Node.send_email_alert ∈ (run_weather_emergency_system o t city).2 ∨
       Node.handle_no_approval ∈ (run_weather_emergency_system o t city).2) := by
  refine ⟨?_, ?_, ?_, ?_, ?_, ?_, ?_, ?_, run_reaches_terminal⟩
  · intro o s e h
    simp [get_weather_data, h]
  · intro o s e h
    simp [analyze_disaster_type, h]
  · intro o s e h
    simp [assess_severity, h]
  · intro o s e h
    simp [emergency_response, h]
  · intro o s e h
    simp [civil_defense_response, h]
  · intro o s e h
    simp [public_works_response, h]
  · intro o s e h
    simp [data_logging, h]
  · intro o t s e h
    simp [send_email_alert, h]

/-- Witness for C7: the containment conjuncts evaluated at the all-failing
    oracle on the initial state for city "c", plus terminality of that run. -/
theorem stage_failure_containment_witness :
    (get_weather_data oracleAllFail (initial_state "c") =
      { initial_state "c" with
          weather_data := some errorData,
          messages := (initial_state "c").messages ++
            ["Failed to fetch weather data for " ++ (initial_state "c").city ++ ": " ++ "net"] }) ∧
    (analyze_disaster_type oracleAllFail (initial_state "c") =
      { initial_state "c" with
          disaster_type := "Analysis Failed",
          messages := (initial_state "c").messages ++
            ["Failed to analyze disaster type: " ++ "llm"] }) ∧
    (assess_severity oracleAllFail (initial_state "c") =
      { initial_state "c" with
          severity := "Assessment Failed",
          messages := (initial_state "c").messages ++ ["Failed to assess severity: " ++ "llm"] }) ∧
    (data_logging oracleAllFail (initial_state "c") =
      { initial_state "c" with
          messages := (initial_state "c").messages ++ ["Failed to log data: " ++ "disk"] }) ∧
    (send_email_alert oracleAllFail 0 (initial_state "c") =
      { initial_state "c" with
          messages := (initial_state "c").messages ++
            ["Failed to send email alert: " ++ "smtp"] }) ∧
    (Node.send_email_alert ∈ (run_weather_emergency_system oracleAllFail 0 "c").2 ∨
      Node.handle_no_approval ∈ (run_weather_emergency_system oracleAllFail 0 "c").2) :=
  ⟨stage_failure_containment.1 oracleAllFail (initial_state "c") "net" rfl,
   stage_failure_containment.2.1 oracleAllFail (initial_state "c") "llm" rfl,
   stage_failure_containment.2.2.1 oracleAllFail (initial_state "c") "llm" rfl,
   stage_failure_containment.2.2.2.2.2.2.1 oracleAllFail (initial_state "c") "disk" rfl,
   stage_failure_containment.2.2.2.2.2.2.2.1 oracleAllFail 0 (initial_state "c") "smtp" rfl,
   stage_failure_containment.2.2.2.2.2.2.2.2 oracleAllFail 0 "c"⟩

/-- Claim C8: the notification stage appends a timestamped notification record
    to `alerts` exactly on successful dispatch; on dispatch failure only the
    trace is updated and every other field (alerts included) is unchanged; no
    error escapes the stage, and the run reaches a terminal node regardless of
    the email outcome. -/
theorem send_email_alert_spec :
    (∀ o t s, o.email = Except.ok () → send_email_alert o t s =
       { s with messages := s.messages ++
                  ["Successfully sent weather alert email for " ++ s.city],
                alerts := s.alerts ++ [alertEntry t] }) ∧
    (∀ o t s e, o.email = Except.error e → send_email_alert o t s =
       { s with messages := s.messages ++ ["Failed to send email alert: " ++ e] }) ∧
    (∀ o t city, Node.send_email_alert ∈ (run_weather_emergency_system o t city).2 ∨
       Node.handle_no_approval ∈ (run_weather_emergency_system o t city).2) := by
  refine ⟨?_, ?_, run_reaches_terminal⟩
  · intro o t s h
    simp [send_email_alert, h]
  · intro o t s e h
    simp [send_email_alert, h]

/-- Witness for C8: a successful dispatch appends the timestamped alert, a
    failing dispatch touches the trace only, and the all-failure run still
    terminates. -/
theorem send_email_alert_spec_witness :
    (send_email_alert oracleLow 5 stLowSuspended =
      { stLowSuspended with
          messages := stLowSuspended.messages ++
            ["Successfully sent weather alert email for " ++ stLowSuspended.city],
          alerts := stLowSuspended.alerts ++ [alertEntry 5] }) ∧
    (send_email_alert oracleEmailFail 5 stLowSuspended =
      { stLowSuspended with
          messages := stLowSuspended.messages ++
            ["Failed to send email alert: " ++ "smtp down"] }) ∧
    (Node.send_email_alert ∈ (run_weather_emergency_system oracleEmailFail 0 "c").2 ∨
      Node.handle_no_approval ∈ (run_weather_emergency_system oracleEmailFail 0 "c").2) :=
  ⟨send_email_alert_spec.1 oracleLow 5 stLowSuspended rfl,
   send_email_alert_spec.2.1 oracleEmailFail 5 stLowSuspended "smtp down" rfl,
   send_email_alert_spec.2.2 oracleEmailFail 0 "c"⟩

/-- Counterexample to C2 as stated: an all-successful run assessed "Critical"
    does reach the notify node without the park node, but `human_approved` in
    the final state is False (its initial value), not the auto-set True the
    claim demands — the verification stage that would set it is bypassed by
    the department router. -/
theorem critical_run_not_auto_approved :
    (run_agent_web oracleCritical 0 "c" []).1.severity = "Critical" ∧
    Node.send_email_alert ∈ (run_agent_web oracleCritical 0 "c" []).2.2 ∧
    Node.wait_for_approval ∉ (run_agent_web oracleCritical 0 "c" []).2.2 ∧
    (run_agent_web oracleCritical 0 "c" []).1.human_approved = some false := by
  decide

/-- Claim C2 as amended: for every run whose assessed severity normalizes to
    "critical" or "high", the notify node is reached and the park node (and
    the whole verification stage) is never entered, in both execution modes;
    the pending store is untouched; but `human_approved` keeps its initial
    value False rather than being auto-set true, because the router sends
    such runs straight from the department stage to notify. -/
theorem critical_high_bypasses_park (o : Oracle) (t : Nat) (city : String)
    (store : Store) (sev : String) (hsev : o.severityLLM = Except.ok sev)
    (hch : pyLower (pyStrip sev) = "critical" ∨ pyLower (pyStrip sev) = "high") :
    Node.send_email_alert ∈ (run_agent_web o t city store).2.2 ∧
    Node.wait_for_approval ∉ (run_agent_web o t city store).2.2 ∧
    Node.get_human_verification ∉ (run_agent_web o t city store).2.2 ∧
    (run_agent_web o t city store).1.human_approved = some false ∧
    (run_agent_web o t city store).2.1 = store ∧
    Node.send_email_alert ∈ (run_weather_emergency_system o t city).2 ∧
    Node.wait_for_approval ∉ (run_weather_emergency_system o t city).2 ∧
    (run_weather_emergency_system o t city).1.human_approved = some false := by
  have hs : (analysis_phase o city).severity = sev := by
    rw [(analysis_phase_spec o city).2.2.2.2.2]
    simp [assessedSeverity, hsev]
  have hroute : route_response (analysis_phase o city) = RouteDept.emergency_response := by
    apply route_response_critical_high
    rw [hs]
    exact hch
  have hha : (send_email_alert o t
      (emergency_response o (analysis_phase o city))).human_approved = some false := by
    rw [(send_email_alert_frame o t _).2.2.2.1,
        (emergency_response_frame o _).2.2.2.2.1,
        (analysis_phase_spec o city).2.2.1]
  refine ⟨?_, ?_, ?_, ?_, ?_, ?_, ?_, ?_⟩ <;>
    simp only [run_agent_web, run_weather_emergency_system, hroute] <;>
    first
      | exact hha
      | rfl
      | decide

/-- Witness for C2 (amended): the Critical all-success run in both modes. -/
theorem critical_high_bypasses_park_witness :
    Node.send_email_alert ∈ (run_agent_web oracleCritical 0 "c" []).2.2 ∧
    Node.wait_for_approval ∉ (run_agent_web oracleCritical 0 "c" []).2.2 ∧
    Node.get_human_verification ∉ (run_agent_web oracleCritical 0 "c" []).2.2 ∧
    (run_agent_web oracleCritical 0 "c" []).1.human_approved = some false ∧
    (run_agent_web oracleCritical 0 "c" []).2.1 = [] ∧
    Node.send_email_alert ∈ (run_weather_emergency_system oracleCritical 0 "c").2 ∧
    Node.wait_for_approval ∉ (run_weather_emergency_system oracleCritical 0 "c").2 ∧
    (run_weather_emergency_system oracleCritical 0 "c").1.human_approved = some false :=
  critical_high_bypasses_park oracleCritical 0 "c" [] "Critical" rfl (Or.inl (by decide))

lemma web_suspend (o : Oracle) (t : Nat) (s : WeatherState) (store : Store)
    (h : pyLower (pyStrip s.severity) = "low" ∨ pyLower (pyStrip s.severity) = "medium") :
    web_verify_then_finish o t s store =
      ({ s with human_approved := none,
                verification_id := some (s.city ++ "_" ++ toString t),
                needs_approval := true,
                messages := s.messages ++
                  ["Human verification required for low/medium severity alert"] },
       storeInsert store (s.city ++ "_" ++ toString t) s,
       [Node.get_human_verification, Node.wait_for_approval]) := by
  have hcond : (pyLower (pyStrip s.severity) == "low" ||
      pyLower (pyStrip s.severity) == "medium") = true := by
    rcases h with h | h <;> simp [h]
  simp [web_verify_then_finish, get_human_verification_web, hcond,
    verify_approval_router_web, wait_for_approval]

lemma low_medium_suspends_aux (o : Oracle) (t : Nat) (city : String) (store : Store)
    (s5 : WeatherState)
    (hsev5 : pyLower (pyStrip s5.severity) = "low" ∨ pyLower (pyStrip s5.severity) = "medium")
    (hcity : s5.city = city)
    (hvid : s5.verification_id = none) (hna : s5.needs_approval = false)
    (hstore : countKey store (city ++ "_" ++ toString t) ≤ 1) :
    (web_verify_then_finish o t s5 store).1.verification_id =
      some (city ++ "_" ++ toString t) ∧
    (web_verify_then_finish o t s5 store).1.needs_approval = true ∧
    (web_verify_then_finish o t s5 store).1.human_approved = none ∧
    Node.wait_for_approval ∈ (web_verify_then_finish o t s5 store).2.2 ∧
    countKey (web_verify_then_finish o t s5 store).2.1 (city ++ "_" ++ toString t) = 1 ∧
    (∃ snap, storeFind (web_verify_then_finish o t s5 store).2.1
        (city ++ "_" ++ toString t) = some snap ∧
      snap.verification_id = none ∧ snap.needs_approval = false) := by
  rw [web_suspend o t s5 store hsev5, hcity]
  refine ⟨rfl, rfl, rfl, by simp, countKey_insert store _ s5 hstore, s5, ?_, hvid, hna⟩
  exact storeFind_insert store _ s5

/-- Counterexample to C3 as stated: in the suspended all-success Low run the
    store holds exactly the token "c_7", but the persisted snapshot carries NO
    resume token (`verification_id = none`) — the stage persists the state
    BEFORE writing the token into it, while the claim requires the token to be
    stored in the state before persisting. -/
theorem suspended_snapshot_lacks_token :
    (run_agent_web oracleLow 7 "c" []).2.1.map (fun p => (p.1, p.2.verification_id)) =
      [("c_7", none)] ∧
    (run_agent_web oracleLow 7 "c" []).1.verification_id = some "c_7" := by
  decide

/-- Claim C3 as amended: for every suspend/resume-mode run whose assessed
    severity normalizes to "low" or "medium" (and whose ambient store holds at
    most one entry for the minted key), the run reaches the park node in the
    Suspended outcome with the non-null token "{city}_{millis}" in the
    returned state, and the store afterwards holds exactly one entry for that
    token; the persisted snapshot, however, is the pre-verification state: it
    carries no token and is not marked as needing approval. -/
theorem low_medium_suspends (o : Oracle) (t : Nat) (city : String) (store : Store)
    (sev : String) (hsev : o.severityLLM = Except.ok sev)
    (hlm : pyLower (pyStrip sev) = "low" ∨ pyLower (pyStrip sev) = "medium")
    (hstore : countKey store (city ++ "_" ++ toString t) ≤ 1) :
    (run_agent_web o t city store).1.verification_id = some (city ++ "_" ++ toString t) ∧
    (run_agent_web o t city store).1.needs_approval = true ∧
    (run_agent_web o t city store).1.human_approved = none ∧
    Node.wait_for_approval ∈ (run_agent_web o t city store).2.2 ∧
    countKey (run_agent_web o t city store).2.1 (city ++ "_" ++ toString t) = 1 ∧
    (∃ snap, storeFind (run_agent_web o t city store).2.1
        (city ++ "_" ++ toString t) = some snap ∧
      snap.verification_id = none ∧ snap.needs_approval = false) := by
  have h4 := analysis_phase_spec o city
  have hsev4 : (analysis_phase o city).severity = sev := by
    rw [h4.2.2.2.2.2]
    simp [assessedSeverity, hsev]
  have hnc : pyLower (pyStrip (analysis_phase o city).severity) ≠ "critical" := by
    rw [hsev4]
    rcases hlm with h | h <;> rw [h] <;> decide
  have hnh : pyLower (pyStrip (analysis_phase o city).severity) ≠ "high" := by
    rw [hsev4]
    rcases hlm with h | h <;> rw [h] <;> decide
  have hroute := route_response_not_critical_high _ hnc hnh
  cases hpc : (pyContains (pyLower (pyStrip (analysis_phase o city).disaster_type)) "flood" ||
      pyContains (pyLower (pyStrip (analysis_phase o city).disaster_type)) "storm")
  · rw [hpc, if_neg (by simp)] at hroute
    have hf := civil_defense_response_frame o (analysis_phase o city)
    have aux := low_medium_suspends_aux o t city store
      (civil_defense_response o (analysis_phase o city))
      (by rw [hf.2.1, hsev4]; exact hlm)
      (by rw [hf.1, h4.1])
      (by rw [hf.2.2.2.2.2.2, h4.2.2.2.2.1])
      (by rw [hf.2.2.2.2.2.1, h4.2.2.2.1])
      hstore
    refine ⟨?_, ?_, ?_, ?_, ?_, ?_⟩ <;>
      simp only [run_agent_web, hroute] <;>
      first
        | exact aux.1
        | exact aux.2.1
        | exact aux.2.2.1
        | exact aux.2.2.2.2.1
        | exact aux.2.2.2.2.2
        | simp only [List.mem_append, List.mem_cons]
          exact Or.inr (Or.inr aux.2.2.2.1)
  · rw [hpc, if_pos rfl] at hroute
    have hf := public_works_response_frame o (analysis_phase o city)
    have aux := low_medium_suspends_aux o t city store
      (public_works_response o (analysis_phase o city))
      (by rw [hf.2.1, hsev4]; exact hlm)
      (by rw [hf.1, h4.1])
      (by rw [hf.2.2.2.2.2.2, h4.2.2.2.2.1])
      (by rw [hf.2.2.2.2.2.1, h4.2.2.2.1])
      hstore
    refine ⟨?_, ?_, ?_, ?_, ?_, ?_⟩ <;>
      simp only [run_agent_web, hroute] <;>
      first
        | exact aux.1
        | exact aux.2.1
        | exact aux.2.2.1
        | exact aux.2.2.2.2.1
        | exact aux.2.2.2.2.2
        | simp only [List.mem_append, List.mem_cons]
          exact Or.inr (Or.inr aux.2.2.2.1)

/-- Witness for C3 (amended): the all-success Low run for city "c" at millis 7
    on the empty store. -/
theorem low_medium_suspends_witness :
    (run_agent_web oracleLow 7 "c" []).1.verification_id = some ("c" ++ "_" ++ toString 7) ∧
    (run_agent_web oracleLow 7 "c" []).1.needs_approval = true ∧
    (run_agent_web oracleLow 7 "c" []).1.human_approved = none ∧
    Node.wait_for_approval ∈ (run_agent_web oracleLow 7 "c" []).2.2 ∧
    countKey (run_agent_web oracleLow 7 "c" []).2.1 ("c" ++ "_" ++ toString 7) = 1 ∧
    (∃ snap, storeFind (run_agent_web oracleLow 7 "c" []).2.1
        ("c" ++ "_" ++ toString 7) = some snap ∧
      snap.verification_id = none ∧ snap.needs_approval = false) :=
  low_medium_suspends oracleLow 7 "c" [] "Low" rfl (Or.inl (by decide)) (by decide)

lemma send_email_time_invariant (o : Oracle) (t1 t2 : Nat) (s : WeatherState)
    (halerts : s.alerts = []) :
    eraseAlerts (send_email_alert o t1 s) = eraseAlerts (send_email_alert o t2 s) ∧
    (∃ b : Bool,
      (send_email_alert o t1 s).alerts = (if b then [alertEntry t1] else []) ∧
      (send_email_alert o t2 s).alerts = (if b then [alertEntry t2] else [])) := by
  cases he : o.email with
  | ok u =>
    refine ⟨by simp [send_email_alert, he, eraseAlerts], true, ?_, ?_⟩ <;>
      simp [send_email_alert, he, halerts]
  | error e =>
    refine ⟨by simp [send_email_alert, he], false, ?_, ?_⟩ <;>
      simp [send_email_alert, he, halerts]

lemma verify_finish_time_invariant (o : Oracle) (t1 t2 : Nat) (s : WeatherState)
    (halerts : s.alerts = []) :
    eraseAlerts (verify_then_finish o t1 s).1 = eraseAlerts (verify_then_finish o t2 s).1 ∧
    (verify_then_finish o t1 s).2 = (verify_then_finish o t2 s).2 ∧
    (∃ b : Bool,
      (verify_then_finish o t1 s).1.alerts = (if b then [alertEntry t1] else []) ∧
      (verify_then_finish o t2 s).1.alerts = (if b then [alertEntry t2] else [])) := by
  have h6 : (get_human_verification o s).alerts = [] := by
    rw [(get_human_verification_frame o s).2.2.2.1, halerts]
  rcases hv : verify_approval_router (get_human_verification o s) with _ | _ <;>
    simp only [verify_then_finish, hv]
  · have := send_email_time_invariant o t1 t2 (get_human_verification o s) h6
    exact ⟨this.1, by simp, this.2⟩
  · refine ⟨by simp, by simp, false, ?_, ?_⟩ <;> simp [handle_no_approval, h6]

/-- Counterexample to C9 as stated: two runs of the blocking executor for the
    same city with the oracle held fixed produce final states whose traces are
    identical entry-for-entry (no trace entry carries a timestamp), yet the
    states are NOT identical — the timestamped entry that differs is the
    notification in `alerts`, so "identical except for the timestamps inside
    trace entries" fails. -/
theorem rerun_differs_in_alert_timestamp :
    (run_weather_emergency_system oracleCritical 0 "c").1.messages =
      (run_weather_emergency_system oracleCritical 1 "c").1.messages ∧
    (run_weather_emergency_system oracleCritical 0 "c").1 ≠
      (run_weather_emergency_system oracleCritical 1 "c").1 ∧
    (run_weather_emergency_system oracleCritical 0 "c").1.alerts = [alertEntry 0] ∧
    (run_weather_emergency_system oracleCritical 1 "c").1.alerts = [alertEntry 1] := by
  decide

/-- Claim C9 as amended: for every city and oracle, two runs of the blocking
    executor with provider/model outputs held fixed visit the same nodes and
    produce final states identical on every field except `alerts`; the traces
    agree exactly (no trace entry carries a timestamp), and the alerts differ
    only in the dispatch timestamp inside the single notification entry (both
    runs record a notification, or neither does). -/
theorem rerun_identical_except_alert_timestamps (o : Oracle) (t1 t2 : Nat) (city : String) :
    eraseAlerts (run_weather_emergency_system o t1 city).1 =
      eraseAlerts (run_weather_emergency_system o t2 city).1 ∧
    (run_weather_emergency_system o t1 city).1.messages =
      (run_weather_emergency_system o t2 city).1.messages ∧
    (run_weather_emergency_system o t1 city).2 =
      (run_weather_emergency_system o t2 city).2 ∧
    (∃ b : Bool,
      (run_weather_emergency_system o t1 city).1.alerts = (if b then [alertEntry t1] else []) ∧
      (run_weather_emergency_system o t2 city).1.alerts = (if b then [alertEntry t2] else [])) := by
  have h4 : (analysis_phase o city).alerts = [] := (analysis_phase_spec o city).2.1
  have hmain :
      eraseAlerts (run_weather_emergency_system o t1 city).1 =
        eraseAlerts (run_weather_emergency_system o t2 city).1 ∧
      (run_weather_emergency_system o t1 city).2 =
        (run_weather_emergency_system o t2 city).2 ∧
      (∃ b : Bool,
        (run_weather_emergency_system o t1 city).1.alerts = (if b then [alertEntry t1] else []) ∧
        (run_weather_emergency_system o t2 city).1.alerts = (if b then [alertEntry t2] else [])) := by
    rcases hr : route_response (analysis_phase o city) with _ | _ | _ <;>
      simp only [run_weather_emergency_system, hr]
    · have h5 : (emergency_response o (analysis_phase o city)).alerts = [] := by
        rw [(emergency_response_frame o _).2.2.2.1, h4]
      have := send_email_time_invariant o t1 t2 _ h5
      exact ⟨this.1, by simp, this.2⟩
    · have h5 : (public_works_response o (analysis_phase o city)).alerts = [] := by
        rw [(public_works_response_frame o _).2.2.2.1, h4]
      have := verify_finish_time_invariant o t1 t2 _ h5
      exact ⟨this.1, by simp [this.2.1], this.2.2⟩
    · have h5 : (civil_defense_response o (analysis_phase o city)).alerts = [] := by
        rw [(civil_defense_response_frame o _).2.2.2.1, h4]
      have := verify_finish_time_invariant o t1 t2 _ h5
      exact ⟨this.1, by simp [this.2.1], this.2.2⟩
  have hmsg : (run_weather_emergency_system o t1 city).1.messages =
      (run_weather_emergency_system o t2 city).1.messages := by
    have := congrArg WeatherState.messages hmain.1
    simpa [eraseAlerts] using this
  exact ⟨hmain.1, hmsg, hmain.2.1, hmain.2.2⟩

end WeatherAgent
